import Mathlib

/-!
Shallow embedding of the `react-bootcamp` teaching repository.

The repository is a set of small React examples.  Every component is a pure
function from its props (and, where `useState` is used, its current state
values) to a react-element tree, so each component is embedded as a Lean
function into an explicit element-tree type `Node`.

Text produced by JSX template strings is kept as a list of `Piece`s so that
literal fragments of the markup stay distinguishable from interpolated
values: `.lit s` is a string fragment written literally in the source,
`.dyn s` is the rendered value of an interpolated expression.  This is the
shape the source itself has (a template string is a sequence of literal
chunks and interpolation holes), and it lets "which fragment was selected"
be stated precisely.
-/

/-- One piece of rendered text: a literal chunk of a JSX template string, or
the value of an interpolation hole. -/
inductive Piece
  | lit (s : String)
  | dyn (s : String)
deriving DecidableEq

/-- A prop/attribute value: a text value (literal or interpolated), or an
event-handler function passed as a prop (opaque data in an element tree). -/
inductive PVal
  | pc (p : Piece)
  | handler
deriving DecidableEq

/-- A react element tree, as plain data (the repository's terminology guide:
"a react element is just a plain object that describes what you want to see
on the screen").  `elem` is a host element such as `div`; `comp` is an
element referencing a user component by name together with its props (React
element creation does not invoke the component, so a `comp` node is a leaf);
`text` is interpolated text; `frag` is a JSX fragment. -/
inductive Node
  | elem (tag : String) (attrs : List (String × PVal)) (children : List Node)
  | comp (cname : String) (props : List (String × PVal))
  | text (t : List Piece)
  | frag (children : List Node)

/-- Erase the value of an interpolation hole, keeping its position. -/
def Piece.skel : Piece → Piece
  | .lit s => .lit s
  | .dyn _ => .dyn ""

/-- Erase interpolated values inside a prop value. -/
def PVal.skel : PVal → PVal
  | .pc p => .pc p.skel
  | .handler => .handler

mutual

/-- The skeleton of an element tree: every literal fragment, tag, attribute
name and tree shape is kept, and only the values of interpolation holes are
erased.  Two inputs on which a component yields different skeletons are
inputs on which the component selected different output fragments. -/
def Node.skel : Node → Node
  | .elem t a c => .elem t (a.map fun x => (x.1, x.2.skel)) (Node.skelList c)
  | .comp n p => .comp n (p.map fun x => (x.1, x.2.skel))
  | .text t => .text (t.map Piece.skel)
  | .frag c => .frag (Node.skelList c)

/-- `Node.skel` mapped over a list of children. -/
def Node.skelList : List Node → List Node
  | [] => []
  | n :: ns => n.skel :: Node.skelList ns

end

/-- The semantics of applying a sequence of state-updater calls made during
one event handler: React applies them in order, so the last value set wins;
an empty call list leaves the state unchanged. -/
def applyCalls {α : Type} (s : α) (calls : List α) : α :=
  calls.foldl (fun _ v => v) s

/-!
JavaScript numeric values reachable in this code base.  The class component
`DetectiveInTheFieldClass` initialises its state from the optional prop
`casesSolvedSoFar` without a default, so the value `undefined` is reachable,
and `undefined + 1` evaluates to `NaN` in JavaScript.
-/

/-- A JavaScript value of the `casesSolved` state field of the class
component: an actual number, `undefined`, or `NaN`. -/
inductive JNum
  | num (n : Nat)
  | undefinedV
  | nan
deriving DecidableEq

/-- JavaScript `v + 1`: `undefined + 1` is `NaN`, `NaN + 1` is `NaN`. -/
def JNum.inc : JNum → JNum
  | .num n => .num (n + 1)
  | .undefinedV => .nan
  | .nan => .nan

/-- JavaScript `v > m` for a numeric literal `m`: comparisons against
`undefined` and `NaN` are false. -/
def JNum.gt (v : JNum) (m : Nat) : Bool :=
  match v with
  | .num n => m < n
  | .undefinedV => false
  | .nan => false

/-- How the value prints when interpolated into a template string. -/
def JNum.display : JNum → String
  | .num n => toString n
  | .undefinedV => "undefined"
  | .nan => "NaN"

/-!
`01-Sherlock.tsx`
-/

/-- The `Sherlock` component: a fixed div of static text. -/
def Sherlock : Node :=
  .elem "div" []
    [.text [.lit "Hi, My name is Sherlock Holmes. I\x27ve solved 27 cases."]]

/-!
`02-Detective.tsx`
-/

/-- The props interface of `Detective`. -/
structure Detective.IProps where
  name : String
  casesSolved : Nat
deriving DecidableEq

/-- The `Detective` component: one template string interpolating `name` and
`casesSolved`, with the literal fragment " cases." used for every count. -/
def Detective (props : Detective.IProps) : Node :=
  .elem "div" []
    [.text [.lit "I\x27m ", .dyn props.name, .lit ". I\x27ve solved ",
            .dyn (toString props.casesSolved), .lit " cases."]]

/-- The record type of the local `detectives` array of `DetectivesList`. -/
structure IDetective where
  name : String
  casesSolved : Nat
deriving DecidableEq

/-- The local constant array of `DetectivesList`. -/
def DetectivesList.detectives : List IDetective :=
  [{ name := "Sherlock Holmes", casesSolved := 27 },
   { name := "CID Daya", casesSolved := 0 }]

/-- The `DetectivesList` component: a div whose children are produced by
mapping over the `detectives` array, creating one `Detective` element per
entry with `key`, `name` and `casesSolved` props. -/
def DetectivesList : Node :=
  .elem "div" []
    (DetectivesList.detectives.map fun d =>
      .comp "Detective"
        [("key", .pc (.dyn d.name)),
         ("name", .pc (.dyn d.name)),
         ("casesSolved", .pc (.dyn (toString d.casesSolved)))])

/-!
`03-DetectiveInTheField.tsx`, function component.

The props are `name : string` and the optional `casesSolvedSoFar?: number`,
embedded as `Option Nat`.  State and event handling are embedded explicitly:
`init` is the `useState` initial value (the destructuring default `= 0`
applies when the prop is omitted), `incrementCasesSolved` is the click
handler's effect on the state, and `state p k` is the state after `k`
clicks of the "Solve this case" button (one click per render).
-/

/-- Initial `casesSolved` state: the prop with destructuring default 0. -/
def DetectiveInTheField.init (casesSolvedSoFar : Option Nat) : Nat :=
  casesSolvedSoFar.getD 0

/-- Effect of the `incrementCasesSolved` handler on the state. -/
def DetectiveInTheField.incrementCasesSolved (casesSolved : Nat) : Nat :=
  casesSolved + 1

/-- The updater calls the handler makes: a single `setCasesSolved` call. -/
def DetectiveInTheField.incrementCalls (casesSolved : Nat) : List Nat :=
  [casesSolved + 1]

/-- State after `k` clicks starting from props `p`. -/
def DetectiveInTheField.state (p : Option Nat) (k : Nat) : Nat :=
  Nat.iterate DetectiveInTheField.incrementCasesSolved k
    (DetectiveInTheField.init p)

/-- The conditionally rendered message: the solved-cases template when
`casesSolved > 0` (with the interpolated choice between "cases" and "case"),
and the in-the-making literal otherwise. -/
def DetectiveInTheField.message (casesSolved : Nat) : List Piece :=
  if 0 < casesSolved then
    [.lit "I\x27ve solved ", .dyn (toString casesSolved), .lit " ",
     .dyn (if 1 < casesSolved then "cases" else "case"), .lit "."]
  else
    [.lit "I\x27m a detective in the making."]

/-- The rendered output of `DetectiveInTheField` at the given state. -/
def DetectiveInTheField.render (name : String) (casesSolved : Nat) : Node :=
  .frag
    [.elem "div" []
      [.text [.lit "I\x27m ", .dyn name, .lit "."],
       .elem "br" [] [],
       .text (DetectiveInTheField.message casesSolved)],
     .elem "br" [] [],
     .elem "button" [("onClick", .handler)] [.text [.lit "Solve this case"]]]

/-!
`03-DetectiveInTheField.tsx`, class component.

The constructor sets `this.state = \x7bcasesSolved: this.props.casesSolvedSoFar\x7d`
with no default, so an omitted prop makes the initial state `undefined`;
the handler's functional update computes `prevState.casesSolved + 1` under
JavaScript arithmetic.
-/

/-- Initial class state: the raw prop, `undefined` when omitted. -/
def DetectiveInTheFieldClass.init (casesSolvedSoFar : Option Nat) : JNum :=
  match casesSolvedSoFar with
  | some n => .num n
  | none => .undefinedV

/-- Effect of the class handler `incrementCasesSolved` on the state. -/
def DetectiveInTheFieldClass.incrementCasesSolved (prev : JNum) : JNum :=
  prev.inc

/-- The updater calls the class handler makes: one `this.setState` call. -/
def DetectiveInTheFieldClass.incrementCalls (prev : JNum) : List JNum :=
  [prev.inc]

/-- Class state after `k` clicks starting from props `p`. -/
def DetectiveInTheFieldClass.state (p : Option Nat) (k : Nat) : JNum :=
  Nat.iterate DetectiveInTheFieldClass.incrementCasesSolved k
    (DetectiveInTheFieldClass.init p)

/-- The class component's conditionally rendered message, under JavaScript
comparison and display semantics. -/
def DetectiveInTheFieldClass.message (casesSolved : JNum) : List Piece :=
  if casesSolved.gt 0 then
    [.lit "I\x27ve solved ", .dyn casesSolved.display, .lit " ",
     .dyn (if casesSolved.gt 1 then "cases" else "case"), .lit "."]
  else
    [.lit "I\x27m a detective in the making."]

/-- The rendered output of `DetectiveInTheFieldClass` at the given state. -/
def DetectiveInTheFieldClass.render (name : String) (casesSolved : JNum) :
    Node :=
  .frag
    [.elem "div" []
      [.text [.lit "I\x27m ", .dyn name, .lit "."],
       .elem "br" [] [],
       .text (DetectiveInTheFieldClass.message casesSolved)],
     .elem "br" [] [],
     .elem "button" [("onClick", .handler)] [.text [.lit "Solve this case"]]]

/-!
`04-Hooks.tsx`
-/

/-- Effect of the `Counter` button's `onClick` handler on the `count`
state: `setCount(count + 1)`. -/
def Counter.increment (count : Nat) : Nat :=
  count + 1

/-- The updater calls that handler makes: a single `setCount` call. -/
def Counter.incrementCalls (count : Nat) : List Nat :=
  [count + 1]

/-- The rendered output of `Counter` at the given `count` state (the other
two state variables, `searchKey` and `filter`, do not appear in the
output). -/
def Counter.render (count : Nat) : Node :=
  .frag
    [.elem "div" [] [.text [.dyn (toString count)]],
     .elem "button" [("onClick", .handler)] [.text [.lit "Increment"]]]

/-- Shape of one `useEffect` registration: whether the effect acquires a
timer (a resource that must later be released), whether it returns a
cleanup function, and its dependency array when one is passed. -/
structure EffectSpec where
  acquiresTimer : Bool
  hasCleanup : Bool
  deps : Option (List String)
deriving DecidableEq

/-- The five `useEffect` registrations of `CounterWithSideEffects`, in
source order: the document-title update, the `setTimeout` effect whose
cleanup calls `clearTimeout`, the log-on-each-render effect, the
log-on-first-render effect (deps `[]`), and the log-on-count-change effect
(deps `[count]`). -/
def CounterWithSideEffects.effects : List EffectSpec :=
  [{ acquiresTimer := false, hasCleanup := false, deps := none },
   { acquiresTimer := true, hasCleanup := true, deps := none },
   { acquiresTimer := false, hasCleanup := false, deps := none },
   { acquiresTimer := false, hasCleanup := false, deps := some [] },
   { acquiresTimer := false, hasCleanup := false, deps := some ["count"] }]

/-- The rendered output of `CounterWithSideEffects` at the given state. -/
def CounterWithSideEffects.render (count : Nat) : Node :=
  .frag
    [.elem "div" [] [.text [.dyn (toString count)]],
     .elem "button" [("onClick", .handler)] [.text [.lit "Increment"]]]

/-- Effect of the `CounterWithSideEffects` button's inline `onClick`
handler on the `count` state: `setCount(count + 1)`. -/
def CounterWithSideEffects.increment (count : Nat) : Nat :=
  count + 1

/-- The updater calls that inline handler makes: one `setCount` call. -/
def CounterWithSideEffects.incrementCalls (count : Nat) : List Nat :=
  [count + 1]

/-- Effect of the `toggleState` updater returned by the custom hook
`useToggleState` on the hook's single boolean state variable:
`setState(!state)`. -/
def useToggleState.toggleState (state : Bool) : Bool :=
  !state

/-- The updater calls `toggleState` makes: one `setState` call, to the
hook's one boolean state variable. -/
def useToggleState.calls (state : Bool) : List Bool :=
  [!state]

/-- The rendered output of `Toggle` at the given state of its
`useToggleState` hook: the inline style colour is selected conditionally
on that state. -/
def Toggle.render (state : Bool) : Node :=
  .elem "div"
    [("style.color", .pc (.lit (if state then "red" else "black"))),
     ("onClick", .handler)]
    [.text [.lit "Click to change the color"]]

/-!
`05-ThinkingInReact.tsx`
-/

/-- The `SlaPageTitle` component: a fixed, hard-coded title div. -/
def SlaPageTitle : Node :=
  .elem "div" [("style.fontSize", .pc (.lit "40px"))]
    [.text [.lit "SLA list"]]

/-- The `SlaActionBar` component: a static button and a static input,
with no event listeners bound. -/
def SlaActionBar : Node :=
  .frag
    [.elem "button" [] [.text [.lit "Create SLA Domain"]],
     .elem "input" [("placeholder", .pc (.lit "Search by name"))] []]

/-- The two state variables of `SlaListPage`. -/
structure SlaListPage.State where
  searchText : String
  filters : List String
deriving DecidableEq

/-- How a list-of-strings prop value prints when carried in an element. -/
def strsVal (l : List String) : String :=
  String.intercalate ", " l

/-- The rendered output of `SlaListPage` at the given state: element data
referencing `SlaPageTitle`, `SlaActionBar`, `SlaFilters` and `SlaTable`
with props drawn from the state.  Element creation does not invoke the
referenced components, so the undefined `SlaFilters` and `SlaTable`
placeholders of the walkthrough are leaves here. -/
def SlaListPage.render (s : SlaListPage.State) : Node :=
  .frag
    [.comp "SlaPageTitle" [],
     .comp "SlaActionBar"
       [("searchText", .pc (.dyn s.searchText)),
        ("setSearchText", .handler)],
     .comp "SlaFilters"
       [("filters", .pc (.dyn (strsVal s.filters))),
        ("setFilters", .handler)],
     .comp "SlaTable"
       [("searchText", .pc (.dyn s.searchText)),
        ("filters", .pc (.dyn (strsVal s.filters)))]]

/-- The props interface of `PageTitle`. -/
structure PageTitle.IProps where
  title : String
deriving DecidableEq

/-- How the `PageTitle` body's interpolated child prints: the component
binds the whole props object to the name `title` and interpolates that
object (a repository slip; the object, not the string, is the child). -/
def PageTitle.childDisplay (props : PageTitle.IProps) : String :=
  "object(title=" ++ props.title ++ ")"

/-- The rendered output of `PageTitle`. -/
def PageTitle.render (props : PageTitle.IProps) : Node :=
  .elem "div"
    [("style.fontSize", .pc (.lit "40px")),
     ("style.color", .pc (.lit "teal"))]
    [.text [.dyn (PageTitle.childDisplay props)]]

/-!
Top-level module evaluation: `index.tsx` and the terminology guide both
look up the container node by id "root" and mount an element tree onto it.
The host document is embedded as the list of element ids it contains, and
the external `react-dom` `render` is modelled by its documented behaviour:
it succeeds on a DOM element and throws "Target container is not a DOM
element." when the looked-up container is not one (in particular on the
`null` that `getElementById` returns when the id is absent).
-/

/-- A host document, as the ids of the elements it contains. -/
abbrev Document' : Type := List String

/-- `document.getElementById`: the id when present, `null` otherwise. -/
def getElementById (d : Document') (i : String) : Option String :=
  if i ∈ d then some i else none

/-- Model of the external `react-dom` `render` call. -/
def reactDomRender (el : Node) (container : Option String) :
    Except String Node :=
  match container with
  | some _ => .ok el
  | none => .error "Target container is not a DOM element."

/-- The element tree `index.tsx` mounts: a `Sherlock` element. -/
def indexReactElementTree : Node :=
  .comp "Sherlock" []

/-- Top-level evaluation of `index.tsx` against a host document. -/
def indexModuleEval (d : Document') : Except String Node :=
  reactDomRender indexReactElementTree (getElementById d "root")

/-- The element tree the terminology guide mounts. -/
def terminologyGuideElementTree : Node :=
  .elem "h1" [("id", .pc (.lit "title"))] [.text [.lit "Hello, World!"]]

/-- Top-level evaluation of the terminology guide against a host document. -/
def terminologyGuideEval (d : Document') : Except String Node :=
  reactDomRender terminologyGuideElementTree (getElementById d "root")

/-- What `index.tsx` ultimately renders, as a function of the definition of
the `Sherlock` component it imports from `01-Sherlock.tsx`: the mounted
output is exactly that component's output. -/
def indexRendered (sherlockImpl : Node) : Node :=
  sherlockImpl

/-!
The source files of the repository and the imports between them (imports of
the external `react` and `react-dom` packages are not repository-local and
are not listed).
-/

/-- The source modules of the repository. -/
inductive SrcModule
  | terminologyGuide
  | sherlock01
  | detective02
  | detectiveInTheField03
  | hooks04
  | thinkingInReact05
  | indexEntry
deriving DecidableEq

/-- The repository-local imports of each module, from its import lines:
only `index.tsx` imports another module of the repository
(`import \x7bSherlock\x7d from './01-Sherlock'`). -/
def localImports : SrcModule → List SrcModule
  | .indexEntry => [.sherlock01]
  | _ => []

/-- All source modules of the repository. -/
def allModules : List SrcModule :=
  [.terminologyGuide, .sherlock01, .detective02, .detectiveInTheField03,
   .hooks04, .thinkingInReact05, .indexEntry]

/-- The components defined in the repository. -/
inductive ComponentId
  | sherlock
  | detective
  | detectivesList
  | detectiveInTheField
  | detectiveInTheFieldClass
  | counter
  | counterWithSideEffects
  | toggle
  | slaPageTitle
  | slaActionBar
  | slaListPage
  | pageTitle
deriving DecidableEq

/-- The `useEffect` registrations each component sets up: only
`CounterWithSideEffects` registers any. -/
def effectsOf : ComponentId → List EffectSpec
  | .counterWithSideEffects => CounterWithSideEffects.effects
  | _ => []

/-!
Helper lemmas shared by the claim theorems.
-/

/-- The function component's state after `k` clicks is the defaulted prop
plus `k`. -/
lemma field_state_eq (p : Option Nat) (k : Nat) :
    DetectiveInTheField.state p k = p.getD 0 + k := by
  have h : ∀ (k i : Nat),
      Nat.iterate DetectiveInTheField.incrementCasesSolved k i = i + k := by
    intro k
    induction k with
    | zero => intro i; rfl
    | succ n ih =>
      intro i
      have := ih (DetectiveInTheField.incrementCasesSolved i)
      simp [Nat.iterate, DetectiveInTheField.incrementCasesSolved] at this ⊢
      omega
  simp [DetectiveInTheField.state, DetectiveInTheField.init, h]

/-- With the prop present, the class component's state after `k` clicks is
the genuine number `c + k`. -/
lemma class_state_some (c k : Nat) :
    DetectiveInTheFieldClass.state (some c) k = .num (c + k) := by
  have h : ∀ (k n : Nat),
      Nat.iterate DetectiveInTheFieldClass.incrementCasesSolved k (.num n) =
        .num (n + k) := by
    intro k
    induction k with
    | zero => intro n; rfl
    | succ m ih =>
      intro n
      have := ih (n + 1)
      simp [Nat.iterate, DetectiveInTheFieldClass.incrementCasesSolved,
        JNum.inc] at this ⊢
      simpa [Nat.add_comm, Nat.add_assoc, Nat.add_left_comm] using this
  simp [DetectiveInTheFieldClass.state, DetectiveInTheFieldClass.init, h]

/-- On a genuine number the class component's message agrees with the
function component's. -/
lemma class_message_num (n : Nat) :
    DetectiveInTheFieldClass.message (.num n) =
      DetectiveInTheField.message n := by
  by_cases h1 : 0 < n <;> by_cases h2 : 1 < n <;>
    simp [DetectiveInTheFieldClass.message, DetectiveInTheField.message,
      JNum.gt, JNum.display, h1, h2]

/-- Characterisation of the three possible messages of
`DetectiveInTheField`: the in-the-making literal exactly at count 0, the
singular "case" exactly at count 1, the plural "cases" exactly above 1. -/
lemma message_spec (n : Nat) :
    (DetectiveInTheField.message n =
        [.lit "I\x27m a detective in the making."] ↔ n = 0) ∧
    (DetectiveInTheField.message n =
        [.lit "I\x27ve solved ", .dyn (toString n), .lit " ",
         .dyn "case", .lit "."] ↔ n = 1) ∧
    (DetectiveInTheField.message n =
        [.lit "I\x27ve solved ", .dyn (toString n), .lit " ",
         .dyn "cases", .lit "."] ↔ 1 < n) := by
  rcases n with _ | _ | m <;>
    simp [DetectiveInTheField.message]

/-!
Claim theorems.
-/

/-- Claim C1: the class-based component is claimed to be a one-to-one
demonstration of the same behaviour as the function component for every
props value (prop present or omitted) and every click count.  The two do
agree for every props value with `casesSolvedSoFar` present, but the class
constructor omits the default 0, so with the prop omitted one click drives
the class state from `undefined` to `NaN`: after one click the function
component renders the solved-one-case message while the class component
still renders the in-the-making message, contradicting the code's own
comment that the class component is equivalent to the function component
above it. -/
theorem detectiveInTheFieldClass_divergence :
    (∀ (nm : String) (c k : Nat),
      DetectiveInTheField.render nm (DetectiveInTheField.state (some c) k) =
        DetectiveInTheFieldClass.render nm
          (DetectiveInTheFieldClass.state (some c) k)) ∧
    DetectiveInTheField.message (DetectiveInTheField.state none 1) =
      [.lit "I\x27ve solved ", .dyn "1", .lit " ", .dyn "case", .lit "."] ∧
    DetectiveInTheFieldClass.state none 1 = .nan ∧
    DetectiveInTheFieldClass.message (DetectiveInTheFieldClass.state none 1) =
      [.lit "I\x27m a detective in the making."] ∧
    DetectiveInTheField.render "Watson" (DetectiveInTheField.state none 1) ≠
      DetectiveInTheFieldClass.render "Watson"
        (DetectiveInTheFieldClass.state none 1) := by
  refine ⟨?_, ?_, rfl, rfl, ?_⟩
  · intro nm c k
    rw [field_state_eq, class_state_some]
    simp [DetectiveInTheField.render, DetectiveInTheFieldClass.render,
      class_message_num]
  · rfl
  · intro h
    simp [DetectiveInTheField.render, DetectiveInTheFieldClass.render,
      DetectiveInTheField.state, DetectiveInTheField.init,
      DetectiveInTheFieldClass.state, DetectiveInTheFieldClass.init,
      Nat.iterate, DetectiveInTheField.incrementCasesSolved,
      DetectiveInTheFieldClass.incrementCasesSolved, JNum.inc,
      DetectiveInTheField.message, DetectiveInTheFieldClass.message,
      JNum.gt] at h

/-- Claim C2, as stated, is false: evaluating an example module's top level
against a host document that has no element with id "root" makes the
container lookup yield null, and the external render call fails with
"Target container is not a DOM element." rather than completing. -/
theorem mounting_fails_without_root :
    indexModuleEval [] = .error "Target container is not a DOM element." ∧
    terminologyGuideEval [] =
      .error "Target container is not a DOM element." := by
  constructor <;> rfl

/-- Claim C2, amended: for every host document that does contain an element
with id "root", evaluating each example module's top level (container
lookup followed by mounting) completes without raising an error; the
embedded repository code itself contains no error branch at all. -/
theorem mounting_succeeds_with_root (d : Document') (h : "root" ∈ d) :
    indexModuleEval d = .ok indexReactElementTree ∧
    terminologyGuideEval d = .ok terminologyGuideElementTree := by
  constructor <;>
    simp [indexModuleEval, terminologyGuideEval, reactDomRender,
      getElementById, h]

/-- Witness for C2: a concrete host document containing "root". -/
theorem mounting_succeeds_with_root_witness :
    indexModuleEval ["root"] = .ok indexReactElementTree ∧
    terminologyGuideEval ["root"] = .ok terminologyGuideElementTree :=
  mounting_succeeds_with_root ["root"] (by simp)

/-- Claim C3, as stated, is false: `DetectiveInTheField` selects a fragment
of its output conditionally on its state.  At count 0 and count 1 the
component's skeletons (all literal fragments and structure, interpolated
values erased) differ: the in-the-making literal is rendered at 0 and the
solved-cases template at 1. -/
theorem detectiveInTheField_conditional_fragments :
    Node.skel (DetectiveInTheField.render "Holmes" 0) ≠
      Node.skel (DetectiveInTheField.render "Holmes" 1) ∧
    DetectiveInTheField.message 0 =
      [.lit "I\x27m a detective in the making."] ∧
    DetectiveInTheField.message 1 =
      [.lit "I\x27ve solved ", .dyn "1", .lit " ", .dyn "case", .lit "."] := by
  refine ⟨?_, rfl, rfl⟩
  intro h
  simp [DetectiveInTheField.render, DetectiveInTheField.message,
    Node.skel, Node.skelList, Piece.skel, PVal.skel] at h

/-- Claim C3, amended: every exported example component other than the
conditional-rendering demonstrations (`DetectiveInTheField`,
`DetectiveInTheFieldClass` and `Toggle`) performs no conditional branching
on props or state: for all inputs its output skeleton (literal fragments,
tags, attributes and structure) is the same, only interpolated values vary.
The input-free components `Sherlock`, `DetectivesList`, `SlaPageTitle` and
`SlaActionBar` are constants, so only the components with props or state
are quantified here. -/
theorem unconditional_components_constant_skeleton :
    (∀ p q : Detective.IProps,
        Node.skel (Detective p) = Node.skel (Detective q)) ∧
    (∀ m n : Nat, Node.skel (Counter.render m) = Node.skel (Counter.render n)) ∧
    (∀ m n : Nat, Node.skel (CounterWithSideEffects.render m) =
        Node.skel (CounterWithSideEffects.render n)) ∧
    (∀ s t : SlaListPage.State,
        Node.skel (SlaListPage.render s) = Node.skel (SlaListPage.render t)) ∧
    (∀ p q : PageTitle.IProps,
        Node.skel (PageTitle.render p) = Node.skel (PageTitle.render q)) := by
  refine ⟨?_, ?_, ?_, ?_, ?_⟩ <;> intros <;>
    simp [Detective, Counter.render, CounterWithSideEffects.render,
      SlaListPage.render, PageTitle.render, Node.skel, Node.skelList,
      Piece.skel, PVal.skel]

/-- Claim C4, as stated, is false: the entry module `index.tsx` imports the
definition `Sherlock` from the module `01-Sherlock.tsx` and mounts it, so
its rendered output is not unchanged under replacement of that module's
definition. -/
theorem indexEntry_references_sherlock_module :
    SrcModule.sherlock01 ∈ localImports SrcModule.indexEntry ∧
    SrcModule.indexEntry ≠ SrcModule.sherlock01 ∧
    SrcModule.indexEntry ∈ allModules ∧
    SrcModule.sherlock01 ∈ allModules ∧
    indexRendered (Node.text [.lit "a"]) ≠
      indexRendered (Node.text [.lit "b"]) := by
  refine ⟨by decide, by decide, by decide, by decide, ?_⟩
  intro h
  simp [indexRendered] at h

/-- Claim C4, amended: the example modules other than the entry module
`index.tsx` are mutually independent: for every pair of distinct modules
among them, neither references a definition of the other (their
repository-local import lists are disjoint from each other). -/
theorem non_entry_modules_mutually_independent :
    ∀ m₁ m₂ : SrcModule,
      m₁ ∈ [SrcModule.terminologyGuide, SrcModule.sherlock01,
        SrcModule.detective02, SrcModule.detectiveInTheField03,
        SrcModule.hooks04, SrcModule.thinkingInReact05] →
      m₂ ∈ [SrcModule.terminologyGuide, SrcModule.sherlock01,
        SrcModule.detective02, SrcModule.detectiveInTheField03,
        SrcModule.hooks04, SrcModule.thinkingInReact05] →
      m₁ ≠ m₂ → m₂ ∉ localImports m₁ := by
  intro m₁ m₂ h1 h2 hne
  fin_cases h1 <;> fin_cases h2 <;> simp [localImports] at hne ⊢

/-- Witness for C4: two concrete distinct non-entry modules. -/
theorem non_entry_modules_mutually_independent_witness :
    SrcModule.sherlock01 ∉ localImports SrcModule.detective02 :=
  non_entry_modules_mutually_independent SrcModule.detective02
    SrcModule.sherlock01 (by decide) (by decide) (by decide)

/-- Claim C5: every exported component is a deterministic map from its
input data to an element description: two evaluations with equal props
and equal current state values return equal element trees. -/
theorem components_deterministic :
    (∀ p q : Detective.IProps,
        p.name = q.name → p.casesSolved = q.casesSolved →
        Detective p = Detective q) ∧
    (∀ (n₁ n₂ : String) (s₁ s₂ : Nat), n₁ = n₂ → s₁ = s₂ →
        DetectiveInTheField.render n₁ s₁ = DetectiveInTheField.render n₂ s₂) ∧
    (∀ (n₁ n₂ : String) (v₁ v₂ : JNum), n₁ = n₂ → v₁ = v₂ →
        DetectiveInTheFieldClass.render n₁ v₁ =
          DetectiveInTheFieldClass.render n₂ v₂) ∧
    (∀ m n : Nat, m = n → Counter.render m = Counter.render n) ∧
    (∀ m n : Nat, m = n →
        CounterWithSideEffects.render m = CounterWithSideEffects.render n) ∧
    (∀ s t : Bool, s = t → Toggle.render s = Toggle.render t) ∧
    (∀ s t : SlaListPage.State, s = t →
        SlaListPage.render s = SlaListPage.render t) ∧
    (∀ p q : PageTitle.IProps, p = q →
        PageTitle.render p = PageTitle.render q) := by
  refine ⟨?_, ?_, ?_, ?_, ?_, ?_, ?_, ?_⟩
  · intro p q h1 h2; cases p; cases q; simp_all
  all_goals intros; subst_vars; rfl

/-- Witness for C5: each conjunct applied at concrete equal inputs. -/
theorem components_deterministic_witness :
    Detective ⟨"Sherlock Holmes", 27⟩ = Detective ⟨"Sherlock Holmes", 27⟩ ∧
    DetectiveInTheField.render "Watson" 1 =
      DetectiveInTheField.render "Watson" 1 ∧
    DetectiveInTheFieldClass.render "Watson" (.num 2) =
      DetectiveInTheFieldClass.render "Watson" (.num 2) ∧
    Counter.render 3 = Counter.render 3 ∧
    CounterWithSideEffects.render 4 = CounterWithSideEffects.render 4 ∧
    Toggle.render true = Toggle.render true ∧
    SlaListPage.render ⟨"gold", ["gold"]⟩ = SlaListPage.render ⟨"gold", ["gold"]⟩ ∧
    PageTitle.render ⟨"SLA list"⟩ = PageTitle.render ⟨"SLA list"⟩ :=
  ⟨components_deterministic.1 _ _ rfl rfl,
   components_deterministic.2.1 _ _ _ _ rfl rfl,
   components_deterministic.2.2.1 _ _ _ _ rfl rfl,
   components_deterministic.2.2.2.1 _ _ rfl,
   components_deterministic.2.2.2.2.1 _ _ rfl,
   components_deterministic.2.2.2.2.2.1 _ _ rfl,
   components_deterministic.2.2.2.2.2.2.1 _ _ rfl,
   components_deterministic.2.2.2.2.2.2.2 _ _ rfl⟩

/-- Claim C6: every state change performed by repository code goes through
a framework-provided state updater.  For each of the five event handlers
defined in the repository (the `Counter` inline increment, the
`CounterWithSideEffects` inline increment, the function and class
`incrementCasesSolved` handlers, and the `useToggleState` toggle), the
handler makes at least one updater call and its entire effect on the state
equals applying exactly its emitted updater calls; no other path changes
state. -/
theorem state_changes_only_via_updater_calls :
    ∀ (count casesSolved : Nat) (prev : JNum) (state : Bool),
      (Counter.incrementCalls count ≠ [] ∧
        Counter.increment count =
          applyCalls count (Counter.incrementCalls count)) ∧
      (CounterWithSideEffects.incrementCalls count ≠ [] ∧
        CounterWithSideEffects.increment count =
          applyCalls count (CounterWithSideEffects.incrementCalls count)) ∧
      (DetectiveInTheField.incrementCalls casesSolved ≠ [] ∧
        DetectiveInTheField.incrementCasesSolved casesSolved =
          applyCalls casesSolved
            (DetectiveInTheField.incrementCalls casesSolved)) ∧
      (DetectiveInTheFieldClass.incrementCalls prev ≠ [] ∧
        DetectiveInTheFieldClass.incrementCasesSolved prev =
          applyCalls prev (DetectiveInTheFieldClass.incrementCalls prev)) ∧
      (useToggleState.calls state ≠ [] ∧
        useToggleState.toggleState state =
          applyCalls state (useToggleState.calls state)) := by
  intro count casesSolved prev state
  refine ⟨⟨?_, rfl⟩, ⟨?_, rfl⟩, ⟨?_, rfl⟩, ⟨?_, rfl⟩, ⟨?_, rfl⟩⟩ <;>
    simp [Counter.incrementCalls, CounterWithSideEffects.incrementCalls,
      DetectiveInTheField.incrementCalls,
      DetectiveInTheFieldClass.incrementCalls, useToggleState.calls]

/-- Claim C7, as stated, is false: `CounterWithSideEffects` registers an
effect that acquires a timer (`setTimeout`) and must later release it, and
indeed pairs it with a cleanup (`clearTimeout`). -/
theorem counterWithSideEffects_timer_acquisition :
    (effectsOf ComponentId.counterWithSideEffects).any
        (fun e => e.acquiresTimer && e.hasCleanup) = true ∧
    CounterWithSideEffects.effects.any (fun e => e.acquiresTimer) = true := by
  decide

/-- Claim C7, amended: no example component other than
`CounterWithSideEffects` sets up any effect at all, and within
`CounterWithSideEffects` the only resource-acquiring effect is the timer
effect, which pairs the acquisition with a cleanup releasing it. -/
theorem resource_management_confined_to_counterWithSideEffects :
    (∀ c : ComponentId,
        c ≠ ComponentId.counterWithSideEffects → effectsOf c = []) ∧
    CounterWithSideEffects.effects.filter (fun e => e.acquiresTimer) =
      [{ acquiresTimer := true, hasCleanup := true, deps := none }] := by
  constructor
  · intro c h; cases c <;> simp_all [effectsOf]
  · decide

/-- Witness for C7: a concrete component other than
`CounterWithSideEffects`. -/
theorem resource_management_confined_witness :
    effectsOf ComponentId.counter = [] :=
  resource_management_confined_to_counterWithSideEffects.1
    ComponentId.counter (by decide)

/-- Claim C8: for every props value of `DetectiveInTheField` (the optional
prop defaulting to 0 when omitted) and every click count `k`, the state,
and hence the displayed count, equals the defaulted prop plus `k`; the
message is the in-the-making literal exactly when that count is 0, uses the
singular "case" exactly when it is 1, and the plural "cases" exactly when
it is greater than 1. -/
theorem detectiveInTheField_count_message_spec :
    ∀ (casesSolvedSoFar : Option Nat) (k : Nat),
      DetectiveInTheField.state casesSolvedSoFar k =
        casesSolvedSoFar.getD 0 + k ∧
      (DetectiveInTheField.message (casesSolvedSoFar.getD 0 + k) =
          [.lit "I\x27m a detective in the making."] ↔
        casesSolvedSoFar.getD 0 + k = 0) ∧
      (DetectiveInTheField.message (casesSolvedSoFar.getD 0 + k) =
          [.lit "I\x27ve solved ", .dyn (toString (casesSolvedSoFar.getD 0 + k)),
           .lit " ", .dyn "case", .lit "."] ↔
        casesSolvedSoFar.getD 0 + k = 1) ∧
      (DetectiveInTheField.message (casesSolvedSoFar.getD 0 + k) =
          [.lit "I\x27ve solved ", .dyn (toString (casesSolvedSoFar.getD 0 + k)),
           .lit " ", .dyn "cases", .lit "."] ↔
        1 < casesSolvedSoFar.getD 0 + k) :=
  fun c k => ⟨field_state_eq c k, message_spec (c.getD 0 + k)⟩

/-- Claim C9: the toggle updater returned by `useToggleState` maps every
boolean state to its negation, two successive applications restore the
state, and the only state-update call it makes is the one `setState` call
on the hook's single boolean state variable. -/
theorem useToggleState_toggle_involution :
    ∀ s : Bool,
      useToggleState.toggleState s = !s ∧
      useToggleState.toggleState (useToggleState.toggleState s) = s ∧
      useToggleState.calls s = [!s] := by
  decide

/-- Claim C10: `DetectivesList` renders exactly two `Detective` children in
fixed order, first "Sherlock Holmes" with `casesSolved` 27 and then
"CID Daya" with `casesSolved` 0, and `Detective` renders one template
string interpolating name and count with the plural literal " cases." for
every count, including 0 and 1. -/
theorem detectivesList_fixed_children_and_plural :
    DetectivesList = Node.elem "div" []
      [Node.comp "Detective"
        [("key", .pc (.dyn "Sherlock Holmes")),
         ("name", .pc (.dyn "Sherlock Holmes")),
         ("casesSolved", .pc (.dyn "27"))],
       Node.comp "Detective"
        [("key", .pc (.dyn "CID Daya")),
         ("name", .pc (.dyn "CID Daya")),
         ("casesSolved", .pc (.dyn "0"))]] ∧
    ∀ p : Detective.IProps, Detective p = Node.elem "div" []
      [Node.text [.lit "I\x27m ", .dyn p.name, .lit ". I\x27ve solved ",
                  .dyn (toString p.casesSolved), .lit " cases."]] :=
  ⟨rfl, fun _ => rfl⟩
